import Mathlib

/-
Shallow embedding of the rustoci handle-lifecycle and error-translation
core (src/ffi.rs, src/env.rs, src/conn.rs, src/stmt.rs).

The native OCI library is modelled as a stub: every raw native call is
recorded in a trace, and the stub decides the integer status code each
call returns (indexed by the number of calls issued so far) together with
the diagnostic record content an OCIErrorGet call would retrieve.
Handles are modelled as natural numbers generated from the call index.
Rust panics (the `panic!` in check_error and the `.ok().expect(..)`
calls in the Drop impls) are modelled as a fatal outcome `POut.fatal`
that aborts execution immediately. Rust ownership is reflected in the
error paths: a value owned by a function that aborts with an error goes
out of scope there, so its Drop impl runs before the error is returned.
-/

/-- Structured error value, mirroring `OracleError` in src/ffi.rs. -/
structure OracleError where
  code : Int
  message : String
  location : String
deriving Repr, DecidableEq

/-- Handle type codes, mirroring `OCIHandleType` in src/ffi.rs. -/
inductive OCIHandleType where
  | environment
  | error
  | service
  | statement
  | bind
  | define
  | describe
  | server
  | session
  | transaction
deriving Repr, DecidableEq

/-- Numeric value of each handle type, as declared in src/ffi.rs. -/
def OCIHandleType.code : OCIHandleType → Nat
  | .environment => 1
  | .error => 2
  | .service => 3
  | .statement => 4
  | .bind => 5
  | .define => 6
  | .describe => 7
  | .server => 8
  | .session => 9
  | .transaction => 10

/-- Attribute codes, mirroring `OCIAttribute` in src/ffi.rs. -/
inductive OCIAttribute where
  | server
  | session
  | username
  | password
deriving Repr, DecidableEq

/-- Numeric value of each attribute, as declared in src/ffi.rs. -/
def OCIAttribute.code : OCIAttribute → Nat
  | .server => 6
  | .session => 7
  | .username => 22
  | .password => 23

/-- Credential type codes, mirroring `OCICredentialsType` in src/ffi.rs. -/
inductive OCICredentialsType where
  | rdbms
  | external
deriving Repr, DecidableEq

/-- Numeric value of each credential type. -/
def OCICredentialsType.code : OCICredentialsType → Nat
  | .rdbms => 1
  | .external => 2

/-- Value passed to an attribute-set call: either another handle (the
server or session link) or a byte string (username or password). -/
inductive AttrVal where
  | handle : Nat → AttrVal
  | str : String → AttrVal
deriving Repr, DecidableEq

/-- One raw native call crossing the FFI boundary, with the arguments
the Rust wrappers in src/ffi.rs pass to it. Handles are naturals. -/
inductive Call where
  | envNlsCreate (mode : Nat)
  | handleAlloc (parent : Nat) (htype : OCIHandleType)
  | serverAttach (srvh errh : Nat) (db : String) (mode : Nat)
  | errorGet (errh : Nat) (recordno : Nat)
  | attrSet (handle : Nat) (htype : OCIHandleType) (value : AttrVal)
      (size : Nat) (attr : OCIAttribute) (errh : Nat)
  | sessionBegin (svch errh usrh : Nat) (credt : Nat) (mode : Nat)
  | sessionEnd (svch errh usrh : Nat) (mode : Nat)
  | serverDetach (srvh errh : Nat) (mode : Nat)
  | handleFree (handle : Nat) (htype : OCIHandleType)
  | stmtPrepare2 (svch errh : Nat) (text : String) (key : String)
      (language : Nat) (mode : Nat)
  | stmtExecute (svch stmth errh : Nat) (iters rowoff : Nat) (mode : Nat)
  | stmtRelease (stmth errh : Nat) (key : String) (mode : Nat)
deriving Repr, DecidableEq

/-- A programmable double of the native library: `status n` is the
integer result code of the n-th native call (counted from 0), and
`diagCode n` / `diagMsg n` is the diagnostic record an OCIErrorGet
issued as the n-th call would retrieve. -/
structure Stub where
  status : Nat → Int
  diagCode : Nat → Int
  diagMsg : Nat → String

/-- Outcome of running embedded code: a value, or a Rust panic. -/
inductive POut (α : Type) where
  | ok : α → POut α
  | fatal : String → POut α
deriving Repr, DecidableEq

/-- The embedding monad: code runs against a stub, appending the raw
native calls it issues to a trace, and either produces a value or hits
a Rust panic. -/
def OciM (α : Type) : Type := Stub → List Call → List Call × POut α

instance : Monad OciM where
  pure a := fun _ t => (t, POut.ok a)
  bind m f := fun s t =>
    match m s t with
    | (t1, POut.ok a) => f a s t1
    | (t1, POut.fatal msg) => (t1, POut.fatal msg)

/-- Issue one raw native call and return its stub-decided status code. -/
def rawCall (c : Call) : OciM Int :=
  fun s t => (t ++ [c], POut.ok (s.status t.length))

/-- Issue one raw native call that also hands back a freshly produced
handle through an out-parameter (OCIEnvNlsCreate, OCIHandleAlloc,
OCIStmtPrepare2). The handle value is derived from the call index. -/
def rawAlloc (c : Call) : OciM (Int × Nat) :=
  fun s t => (t ++ [c], POut.ok (s.status t.length, t.length + 1))

/-- Embedded panic, mirroring a Rust `panic!` or failed `.expect`. -/
def fatalM {α : Type} (msg : String) : OciM α :=
  fun _ t => (t, POut.fatal msg)

/-- Executable model of Rust str trim: drop whitespace characters from
both ends of the string. -/
def strTrim (s : String) : String :=
  String.mk (((s.data.dropWhile Char.isWhitespace).reverse.dropWhile
    Char.isWhitespace).reverse)

/-- Mirrors `oci_error_get` in src/ffi.rs: issues the raw OCIErrorGet
call at record number 1, ignores its own status code, and builds an
OracleError from the retrieved code and trimmed message plus the given
location tag. It cannot panic, so it is a plain trace function. -/
def oci_error_get (error_handle : Nat) (location : String) :
    Stub → List Call → List Call × OracleError :=
  fun s t =>
    (t ++ [Call.errorGet error_handle 1],
     { code := s.diagCode t.length,
       message := strTrim (s.diagMsg t.length),
       location := location })

/-- Mirrors `check_error` in src/ffi.rs. Note that the source computes
`by_handle` before matching on the code: whenever an error handle is
supplied, the diagnostic-retrieval call is issued, and its result is
then used only in the -1 and 1 branches. Unknown codes panic. -/
def check_error (code : Int) (error_handle : Option Nat)
    (location : String) : OciM (Option OracleError) :=
  fun s t =>
    let q : List Call × Option OracleError :=
      match error_handle with
      | some handle =>
          let r := oci_error_get handle location s t
          (r.1, some r.2)
      | none => (t, none)
    let by_handle := q.2
    (q.1,
      if code = 0 then POut.ok none
      else if code = 100 then
        POut.ok (some { code := code, message := "No data", location := location })
      else if code = -2 then
        POut.ok (some { code := code, message := "Invalid handle", location := location })
      else if code = 99 then
        POut.ok (some { code := code, message := "Need data", location := location })
      else if code = -3123 then
        POut.ok (some { code := code, message := "Still executing", location := location })
      else if code = -1 then
        POut.ok (some (by_handle.getD
          { code := code, message := "Error with no details", location := location }))
      else if code = 1 then
        POut.ok (some (by_handle.getD
          { code := code, message := "Success with info", location := location }))
      else POut.fatal "Unknown return code")

/-- A stub on which every native call succeeds with status 0. -/
def allOk : Stub :=
  { status := fun _ => 0
    diagCode := fun _ => 1017
    diagMsg := fun _ => "ORA-01017" }

/-- A stub on which exactly the k-th native call fails with status -1
and every other call succeeds. -/
def failAt (k : Nat) : Stub :=
  { status := fun n => if n = k then -1 else 0
    diagCode := fun _ => 1017
    diagMsg := fun _ => "ORA-01017" }

/-- Mirrors `oci_env_nls_create` in src/ffi.rs. -/
def oci_env_nls_create (mode : Nat) : OciM (Except OracleError Nat) := do
  let r ← rawAlloc (Call.envNlsCreate mode)
  match ← check_error r.1 none "ffi::oci_env_nls_create" with
  | none => pure (Except.ok r.2)
  | some err => pure (Except.error err)

/-- Mirrors `oci_handle_alloc` in src/ffi.rs. -/
def oci_handle_alloc (envh : Nat) (htype : OCIHandleType) :
    OciM (Except OracleError Nat) := do
  let r ← rawAlloc (Call.handleAlloc envh htype)
  match ← check_error r.1 none "ffi::oci_handle_alloc" with
  | none => pure (Except.ok r.2)
  | some err => pure (Except.error err)

/-- Mirrors `oci_server_attach` in src/ffi.rs. -/
def oci_server_attach (server_handle error_handle : Nat) (db : String)
    (mode : Nat) : OciM (Except OracleError Unit) := do
  let res ← rawCall (Call.serverAttach server_handle error_handle db mode)
  match ← check_error res (some error_handle) "ffi::oci_server_attach" with
  | none => pure (Except.ok ())
  | some err => pure (Except.error err)

/-- Mirrors `oci_attr_set` in src/ffi.rs: for the Username and Password
attributes the byte length of the value accompanies it; for every other
attribute the size passed is zero. -/
def oci_attr_set (handle : Nat) (htype : OCIHandleType) (value : AttrVal)
    (attr_type : OCIAttribute) (error_handle : Nat) :
    OciM (Except OracleError Unit) := do
  let size : Nat :=
    match attr_type with
    | .username | .password =>
        match value with
        | .str v => v.utf8ByteSize
        | .handle _ => 0
    | _ => 0
  let res ← rawCall (Call.attrSet handle htype value size attr_type error_handle)
  match ← check_error res (some error_handle) "ffi::oci_attr_set" with
  | none => pure (Except.ok ())
  | some err => pure (Except.error err)

/-- Mirrors `oci_session_begin` in src/ffi.rs. -/
def oci_session_begin (service_handle error_handle session_handle : Nat)
    (credentials_type : OCICredentialsType) (mode : Nat) :
    OciM (Except OracleError Unit) := do
  let res ← rawCall (Call.sessionBegin service_handle error_handle
    session_handle credentials_type.code mode)
  match ← check_error res (some error_handle) "ffi::oci_session_begin" with
  | none => pure (Except.ok ())
  | some err => pure (Except.error err)

/-- Mirrors `oci_session_end` in src/ffi.rs (mode is OCI_DEFAULT = 0). -/
def oci_session_end (service_handle error_handle session_handle : Nat) :
    OciM (Except OracleError Unit) := do
  let res ← rawCall (Call.sessionEnd service_handle error_handle session_handle 0)
  match ← check_error res (some error_handle) "ffi::oci_session_end" with
  | none => pure (Except.ok ())
  | some err => pure (Except.error err)

/-- Mirrors `oci_server_detach` in src/ffi.rs (mode is OCI_DEFAULT = 0). -/
def oci_server_detach (server_handle error_handle : Nat) :
    OciM (Except OracleError Unit) := do
  let res ← rawCall (Call.serverDetach server_handle error_handle 0)
  match ← check_error res (some error_handle) "ffi::oci_server_detach" with
  | none => pure (Except.ok ())
  | some err => pure (Except.error err)

/-- Mirrors `oci_handle_free` in src/ffi.rs: no error handle is passed
to check_error. -/
def oci_handle_free (handle : Nat) (htype : OCIHandleType) :
    OciM (Except OracleError Unit) := do
  let res ← rawCall (Call.handleFree handle htype)
  match ← check_error res none "ffi::oci_handle_free" with
  | none => pure (Except.ok ())
  | some err => pure (Except.error err)

/-- Mirrors `oci_stmt_prepare2` in src/ffi.rs: passes the statement text
and the cache key, language OCI_NTV_SYNTAX = 1 and mode OCI_DEFAULT = 0,
and hands back the prepared statement handle. -/
def oci_stmt_prepare2 (service_handle error_handle : Nat)
    (stmt_text stmt_hash : String) : OciM (Except OracleError Nat) := do
  let r ← rawAlloc (Call.stmtPrepare2 service_handle error_handle
    stmt_text stmt_hash 1 0)
  match ← check_error r.1 (some error_handle) "ffi::oci_stmt_prepare2" with
  | none => pure (Except.ok r.2)
  | some err => pure (Except.error err)

/-- Mirrors `oci_stmt_execute` in src/ffi.rs: iteration count 0, row
offset 0, mode OCI_DEFAULT = 0. -/
def oci_stmt_execute (service_handle stmt_handle error_handle : Nat) :
    OciM (Except OracleError Unit) := do
  let res ← rawCall (Call.stmtExecute service_handle stmt_handle
    error_handle 0 0 0)
  match ← check_error res (some error_handle) "ffi::oci_stmt_execute" with
  | none => pure (Except.ok ())
  | some err => pure (Except.error err)

/-- Mirrors `oci_stmt_release` in src/ffi.rs: releases the statement
under the given cache key, mode OCI_DEFAULT = 0. -/
def oci_stmt_release (stmt_handle error_handle : Nat) (stmt_hash : String) :
    OciM (Except OracleError Unit) := do
  let res ← rawCall (Call.stmtRelease stmt_handle error_handle stmt_hash 0)
  match ← check_error res (some error_handle) "ffi::oci_stmt_release" with
  | none => pure (Except.ok ())
  | some err => pure (Except.error err)

/-- Mirrors `Environment` in src/env.rs. -/
structure Environment where
  handle : Nat
  error_handle : Nat
deriving Repr, DecidableEq

/-- Mirrors `Environment::new` in src/env.rs: create the environment
handle with default mode, then allocate the error handle as its child,
aborting on the first failure. -/
def Environment.new : OciM (Except OracleError Environment) := do
  match ← oci_env_nls_create 0 with
  | Except.error e => pure (Except.error e)
  | Except.ok handle =>
  match ← oci_handle_alloc handle OCIHandleType.error with
  | Except.error e => pure (Except.error e)
  | Except.ok error_handle =>
  pure (Except.ok { handle := handle, error_handle := error_handle })

/-- Mirrors `Drop for Environment` in src/env.rs: free the error handle,
then the environment handle, panicking if a free fails. -/
def Environment.drop (env : Environment) : OciM Unit := do
  match ← oci_handle_free env.error_handle OCIHandleType.error with
  | Except.error _ => fatalM "oci_handle_free (error_handle) failed"
  | Except.ok _ =>
  match ← oci_handle_free env.handle OCIHandleType.environment with
  | Except.error _ => fatalM "oci_handle_free (environment handle) failed"
  | Except.ok _ => pure ()

/-- Mirrors `Connection` in src/conn.rs. -/
structure Connection where
  env : Environment
  service_handle : Nat
  server_handle : Nat
  session_handle : Nat
deriving Repr, DecidableEq

/-- Mirrors `Connection::new` in src/conn.rs: build the environment,
allocate the server, service and session handles, attach the server to
the database, link the server into the service context, set the
username and password attributes on the session, begin the session with
RDBMS credentials, and link the session into the service context,
aborting on the first failing step. On every aborting return after the
environment was built, the owned `env` local goes out of scope in Rust
and its Drop impl runs (it frees the error handle and the environment
handle); the raw server, service and session pointers have no Drop and
are leaked on those paths. -/
def Connection.new (username password database : String) :
    OciM (Except OracleError Connection) := do
  match ← Environment.new with
  | Except.error e => pure (Except.error e)
  | Except.ok env =>
  match ← oci_handle_alloc env.handle OCIHandleType.server with
  | Except.error e => do Environment.drop env; pure (Except.error e)
  | Except.ok server_handle =>
  match ← oci_handle_alloc env.handle OCIHandleType.service with
  | Except.error e => do Environment.drop env; pure (Except.error e)
  | Except.ok service_handle =>
  match ← oci_handle_alloc env.handle OCIHandleType.session with
  | Except.error e => do Environment.drop env; pure (Except.error e)
  | Except.ok session_handle =>
  match ← oci_server_attach server_handle env.error_handle database 0 with
  | Except.error e => do Environment.drop env; pure (Except.error e)
  | Except.ok _ =>
  match ← oci_attr_set service_handle OCIHandleType.service
      (AttrVal.handle server_handle) OCIAttribute.server env.error_handle with
  | Except.error e => do Environment.drop env; pure (Except.error e)
  | Except.ok _ =>
  match ← oci_attr_set session_handle OCIHandleType.session
      (AttrVal.str username) OCIAttribute.username env.error_handle with
  | Except.error e => do Environment.drop env; pure (Except.error e)
  | Except.ok _ =>
  match ← oci_attr_set session_handle OCIHandleType.session
      (AttrVal.str password) OCIAttribute.password env.error_handle with
  | Except.error e => do Environment.drop env; pure (Except.error e)
  | Except.ok _ =>
  match ← oci_session_begin service_handle env.error_handle session_handle
      OCICredentialsType.rdbms 0 with
  | Except.error e => do Environment.drop env; pure (Except.error e)
  | Except.ok _ =>
  match ← oci_attr_set service_handle OCIHandleType.service
      (AttrVal.handle session_handle) OCIAttribute.session env.error_handle with
  | Except.error e => do Environment.drop env; pure (Except.error e)
  | Except.ok _ =>
  pure (Except.ok { env := env, service_handle := service_handle,
                    server_handle := server_handle,
                    session_handle := session_handle })

/-- Rust drop glue for Connection: the body of `Drop for Connection` in
src/conn.rs (session end, server detach, free session, free service,
free server, each panicking via expect on failure), followed by the
automatic drop of the owned `env` field, which frees the error handle
and then the environment handle. -/
def Connection.drop (c : Connection) : OciM Unit := do
  match ← oci_session_end c.service_handle c.env.error_handle c.session_handle with
  | Except.error _ => fatalM "oci_session_end failed"
  | Except.ok _ =>
  match ← oci_server_detach c.server_handle c.env.error_handle with
  | Except.error _ => fatalM "oci_server_detach failed"
  | Except.ok _ =>
  match ← oci_handle_free c.session_handle OCIHandleType.session with
  | Except.error _ => fatalM "oci_handle_free (session_handle) failed"
  | Except.ok _ =>
  match ← oci_handle_free c.service_handle OCIHandleType.service with
  | Except.error _ => fatalM "oci_handle_free (service_handle) failed"
  | Except.ok _ =>
  match ← oci_handle_free c.server_handle OCIHandleType.server with
  | Except.error _ => fatalM "oci_handle_free (server_handle) failed"
  | Except.ok _ =>
  Environment.drop c.env

/-- Mirrors `Statement` in src/stmt.rs: owns the Connection it was
created from, the prepared statement handle, and the cache key. -/
structure Statement where
  conn : Connection
  stmt_handle : Nat
  stmt_hash : String
deriving Repr, DecidableEq

/-- Mirrors `Statement::new` in src/stmt.rs: the cache key is a plain
clone of the statement text (the source notes hashing is currently
unstable), and the prepare call carries the text and that key. The
Connection is taken by value; on the aborting path its Drop impl runs,
tearing the whole connection down. -/
def Statement.new (conn : Connection) (stmt_text : String) :
    OciM (Except OracleError Statement) := do
  let stmt_hash := stmt_text
  match ← oci_stmt_prepare2 conn.service_handle conn.env.error_handle
      stmt_text stmt_hash with
  | Except.error e => do Connection.drop conn; pure (Except.error e)
  | Except.ok stmt_handle =>
  pure (Except.ok { conn := conn, stmt_handle := stmt_handle,
                    stmt_hash := stmt_hash })

/-- Rust drop glue for Statement: the body of `Drop for Statement` in
src/stmt.rs (release the statement under its stored cache key,
panicking via expect on failure), followed by the automatic drop of the
owned `conn` field, which runs the whole Connection teardown. -/
def Statement.drop (s : Statement) : OciM Unit := do
  match ← oci_stmt_release s.stmt_handle s.conn.env.error_handle s.stmt_hash with
  | Except.error _ => fatalM "oci_stmt_release failed"
  | Except.ok _ =>
  Connection.drop s.conn

/-- Mirrors `Statement::execute` in src/stmt.rs: issue the execute call
and return the same statement value on success. The statement is taken
by value; on the aborting path it goes out of scope and its drop glue
runs. -/
def Statement.execute (s : Statement) : OciM (Except OracleError Statement) := do
  match ← oci_stmt_execute s.conn.service_handle s.stmt_handle
      s.conn.env.error_handle with
  | Except.error e => do Statement.drop s; pure (Except.error e)
  | Except.ok _ => pure (Except.ok s)

/-- Mirrors `Connection::new_statement` in src/conn.rs: consumes the
Connection by value and hands it to `Statement::new`. -/
def Connection.new_statement (c : Connection) (stmt_text : String) :
    OciM (Except OracleError Statement) :=
  Statement.new c stmt_text

/-- Caller-facing chain from src/stmt.rs usage: create a statement from
a connection and then execute it, propagating the first error. -/
def prepareAndExecute (c : Connection) (stmt_text : String) :
    OciM (Except OracleError Statement) := do
  match ← Statement.new c stmt_text with
  | Except.error e => pure (Except.error e)
  | Except.ok s => Statement.execute s

/-- Full statement lifecycle: create a statement from a connection and
let it go out of scope, running its drop glue. On a prepare failure the
connection was already torn down inside `Statement.new`. -/
def statementLifecycle (c : Connection) (stmt_text : String) : OciM Unit := do
  match ← Statement.new c stmt_text with
  | Except.error _ => pure ()
  | Except.ok s => Statement.drop s

/-- Cache keys carried by the statement-prepare calls of a trace. -/
def prepareKeys (t : List Call) : List String :=
  t.filterMap fun c =>
    match c with
    | Call.stmtPrepare2 _ _ _ key _ _ => some key
    | _ => none

/-- Cache keys carried by the statement-release calls of a trace. -/
def releaseKeys (t : List Call) : List String :=
  t.filterMap fun c =>
    match c with
    | Call.stmtRelease _ _ key _ => some key
    | _ => none

/-- Whether a raw call is a handle-free call. -/
def isFreeCall : Call → Bool
  | Call.handleFree _ _ => true
  | _ => false

/-- The full native call sequence of a successful `Connection.new` run
started on an empty trace: environment creation, the four child handle
allocations, then attach, link-server, set-username, set-password,
session-begin and link-session, each fallible call that supplies an
error handle being followed by the eager diagnostic retrieval that
`check_error` issues. -/
def connectionProtocolTrace (u p d : String) : List Call :=
  [Call.envNlsCreate 0,
   Call.handleAlloc 1 OCIHandleType.error,
   Call.handleAlloc 1 OCIHandleType.server,
   Call.handleAlloc 1 OCIHandleType.service,
   Call.handleAlloc 1 OCIHandleType.session,
   Call.serverAttach 3 2 d 0,
   Call.errorGet 2 1,
   Call.attrSet 4 OCIHandleType.service (AttrVal.handle 3) 0 OCIAttribute.server 2,
   Call.errorGet 2 1,
   Call.attrSet 5 OCIHandleType.session (AttrVal.str u) u.utf8ByteSize
     OCIAttribute.username 2,
   Call.errorGet 2 1,
   Call.attrSet 5 OCIHandleType.session (AttrVal.str p) p.utf8ByteSize
     OCIAttribute.password 2,
   Call.errorGet 2 1,
   Call.sessionBegin 4 2 5 1 0,
   Call.errorGet 2 1,
   Call.attrSet 4 OCIHandleType.service (AttrVal.handle 5) 0 OCIAttribute.session 2,
   Call.errorGet 2 1]

/-- The two frees issued by the Drop impl of the Environment built
first inside `Connection.new` (error handle 2, environment handle 1),
run on every aborting path after the environment exists. -/
def envDropFrees : List Call :=
  [Call.handleFree 2 OCIHandleType.error,
   Call.handleFree 1 OCIHandleType.environment]

/-- C1: check_error maps status code 0 to no error, and each of the
sentinel codes 100, -2, 99 and -3123 to its fixed canned classification
(the code itself, the canned message, the location tag); since the
statement holds for an arbitrary error-handle option and an arbitrary
stub, the resulting value is the same whether or not an error handle is
supplied and whatever diagnostic content the stub would deliver. -/
theorem check_error_sentinel_canned (s : Stub) (t : List Call)
    (eh : Option Nat) (loc : String) :
    (check_error 0 eh loc s t).2 = POut.ok none
    ∧ (check_error 100 eh loc s t).2 =
        POut.ok (some { code := 100, message := "No data", location := loc })
    ∧ (check_error (-2) eh loc s t).2 =
        POut.ok (some { code := -2, message := "Invalid handle", location := loc })
    ∧ (check_error 99 eh loc s t).2 =
        POut.ok (some { code := 99, message := "Need data", location := loc })
    ∧ (check_error (-3123) eh loc s t).2 =
        POut.ok (some { code := -3123, message := "Still executing", location := loc }) := by
  cases eh <;> exact ⟨rfl, rfl, rfl, rfl, rfl⟩

/-- C4: for status codes -1 and 1, when an error handle is supplied
check_error issues exactly one diagnostic-retrieval call at record
index 1 and returns the code and trimmed message that call retrieved;
when no error handle is supplied it returns the canned fallback with
message Error with no details for -1 and Success with info for 1. -/
theorem check_error_diagnosed (s : Stub) (t : List Call) (h : Nat)
    (loc : String) :
    check_error (-1) (some h) loc s t =
      (t ++ [Call.errorGet h 1],
       POut.ok (some { code := s.diagCode t.length,
                       message := strTrim (s.diagMsg t.length),
                       location := loc }))
    ∧ check_error 1 (some h) loc s t =
      (t ++ [Call.errorGet h 1],
       POut.ok (some { code := s.diagCode t.length,
                       message := strTrim (s.diagMsg t.length),
                       location := loc }))
    ∧ check_error (-1) none loc s t =
      (t, POut.ok (some { code := -1, message := "Error with no details",
                          location := loc }))
    ∧ check_error 1 none loc s t =
      (t, POut.ok (some { code := 1, message := "Success with info",
                          location := loc })) :=
  ⟨rfl, rfl, rfl, rfl⟩

/-- C5: for any status code outside the set of recognized codes,
check_error does not return a value: it hits the panic with message
Unknown return code, for any stub, trace, error-handle option and
location, so such a code is never treated as success. -/
theorem check_error_unknown_fatal (code : Int) (s : Stub) (t : List Call)
    (eh : Option Nat) (loc : String)
    (hc : code ∉ ([0, 100, -2, 99, -3123, -1, 1] : List Int)) :
    (check_error code eh loc s t).2 = POut.fatal "Unknown return code" := by
  have h0 : ¬ code = 0 := fun e => hc (by rw [e]; decide)
  have h1 : ¬ code = 100 := fun e => hc (by rw [e]; decide)
  have h2 : ¬ code = -2 := fun e => hc (by rw [e]; decide)
  have h3 : ¬ code = 99 := fun e => hc (by rw [e]; decide)
  have h4 : ¬ code = -3123 := fun e => hc (by rw [e]; decide)
  have h5 : ¬ code = -1 := fun e => hc (by rw [e]; decide)
  have h6 : ¬ code = 1 := fun e => hc (by rw [e]; decide)
  cases eh <;>
    simp only [check_error, oci_error_get, if_neg h0, if_neg h1, if_neg h2,
      if_neg h3, if_neg h4, if_neg h5, if_neg h6]

/-- Witness for C5 at the concrete status code 2. -/
theorem check_error_unknown_fatal_witness :
    ((2 : Int) ∉ ([0, 100, -2, 99, -3123, -1, 1] : List Int))
    ∧ (check_error 2 none "ffi::oci_handle_free" allOk []).2 =
        POut.fatal "Unknown return code" :=
  ⟨by decide,
   check_error_unknown_fatal 2 allOk [] none "ffi::oci_handle_free" (by decide)⟩

/-- C9 counterexample: at status code 0 (success) with an error handle
supplied, check_error nevertheless issues the diagnostic-retrieval
call, because the source computes by_handle before matching on the
code; this refutes the claim that the handle is never queried for code
0 or the canned sentinel codes. -/
theorem check_error_queries_handle_on_success :
    (check_error 0 (some 7) "ffi::oci_attr_set" allOk []).1 =
      [Call.errorGet 7 1] := rfl

/-- C9 amended: check_error issues the diagnostic-retrieval call at
record index 1 exactly when an error handle is supplied, whatever the
status code is, and issues no native call when no handle is supplied;
the retrieved diagnostic influences the returned value only for codes
-1 and 1. -/
theorem check_error_eager_diagnostic (code : Int) (s : Stub)
    (t : List Call) (h : Nat) (loc : String) :
    (check_error code (some h) loc s t).1 = t ++ [Call.errorGet h 1]
    ∧ (check_error code none loc s t).1 = t :=
  ⟨rfl, rfl⟩

set_option maxHeartbeats 3200000 in
/-- C2: on a stub where every native call succeeds, Connection.new
issues exactly the protocol trace: server-attach, link-server,
set-username, set-password, session-begin and link-session in that
order (after the environment and the three child handle allocations),
and returns the composed Connection. On a stub where exactly one
protocol step fails, the error of that step is returned and no later
protocol step appears in the trace: the run stops at the failing call
(plus its diagnostic retrieval where an error handle was supplied, and
the two frees of the Drop impl of the already-built environment). -/
theorem connection_new_protocol (u p d : String) :
    Connection.new u p d allOk [] =
      (connectionProtocolTrace u p d,
       POut.ok (Except.ok { env := { handle := 1, error_handle := 2 },
                            service_handle := 4, server_handle := 3,
                            session_handle := 5 }))
    ∧ Connection.new u p d (failAt 0) [] =
      ((connectionProtocolTrace u p d).take 1,
       POut.ok (Except.error { code := -1, message := "Error with no details",
                               location := "ffi::oci_env_nls_create" }))
    ∧ Connection.new u p d (failAt 1) [] =
      ((connectionProtocolTrace u p d).take 2,
       POut.ok (Except.error { code := -1, message := "Error with no details",
                               location := "ffi::oci_handle_alloc" }))
    ∧ Connection.new u p d (failAt 2) [] =
      ((connectionProtocolTrace u p d).take 3 ++ envDropFrees,
       POut.ok (Except.error { code := -1, message := "Error with no details",
                               location := "ffi::oci_handle_alloc" }))
    ∧ Connection.new u p d (failAt 3) [] =
      ((connectionProtocolTrace u p d).take 4 ++ envDropFrees,
       POut.ok (Except.error { code := -1, message := "Error with no details",
                               location := "ffi::oci_handle_alloc" }))
    ∧ Connection.new u p d (failAt 4) [] =
      ((connectionProtocolTrace u p d).take 5 ++ envDropFrees,
       POut.ok (Except.error { code := -1, message := "Error with no details",
                               location := "ffi::oci_handle_alloc" }))
    ∧ Connection.new u p d (failAt 5) [] =
      ((connectionProtocolTrace u p d).take 7 ++ envDropFrees,
       POut.ok (Except.error { code := 1017, message := "ORA-01017",
                               location := "ffi::oci_server_attach" }))
    ∧ Connection.new u p d (failAt 7) [] =
      ((connectionProtocolTrace u p d).take 9 ++ envDropFrees,
       POut.ok (Except.error { code := 1017, message := "ORA-01017",
                               location := "ffi::oci_attr_set" }))
    ∧ Connection.new u p d (failAt 9) [] =
      ((connectionProtocolTrace u p d).take 11 ++ envDropFrees,
       POut.ok (Except.error { code := 1017, message := "ORA-01017",
                               location := "ffi::oci_attr_set" }))
    ∧ Connection.new u p d (failAt 11) [] =
      ((connectionProtocolTrace u p d).take 13 ++ envDropFrees,
       POut.ok (Except.error { code := 1017, message := "ORA-01017",
                               location := "ffi::oci_attr_set" }))
    ∧ Connection.new u p d (failAt 13) [] =
      ((connectionProtocolTrace u p d).take 15 ++ envDropFrees,
       POut.ok (Except.error { code := 1017, message := "ORA-01017",
                               location := "ffi::oci_session_begin" }))
    ∧ Connection.new u p d (failAt 15) [] =
      ((connectionProtocolTrace u p d).take 17 ++ envDropFrees,
       POut.ok (Except.error { code := 1017, message := "ORA-01017",
                               location := "ffi::oci_attr_set" })) :=
  ⟨rfl, rfl, rfl, rfl, rfl, rfl, rfl, rfl, rfl, rfl, rfl, rfl⟩

/-- C3: the drop glue of a fully constructed Connection issues session
end, server detach, free of the session handle, free of the service
handle, free of the server handle, free of the error handle and free of
the environment handle, in that exact order and exactly once each (the
two fallible teardown calls that supply the error handle are each
followed by the eager diagnostic retrieval of check_error). -/
theorem connection_drop_order (envh errh svch srvh ssnh : Nat) :
    Connection.drop { env := { handle := envh, error_handle := errh },
                      service_handle := svch, server_handle := srvh,
                      session_handle := ssnh } allOk [] =
      ([Call.sessionEnd svch errh ssnh 0,
        Call.errorGet errh 1,
        Call.serverDetach srvh errh 0,
        Call.errorGet errh 1,
        Call.handleFree ssnh OCIHandleType.session,
        Call.handleFree svch OCIHandleType.service,
        Call.handleFree srvh OCIHandleType.server,
        Call.handleFree errh OCIHandleType.error,
        Call.handleFree envh OCIHandleType.environment],
       POut.ok ()) :=
  rfl

/-- C8 counterexample: on the stub where exactly the second native call
(the error-handle allocation) fails, Environment.new returns the first
error and no Environment, but the environment handle that the first,
successful call allocated is never freed: the trace contains no
handle-free call at all, so the claim that every handle allocated
within the scope of the failing call has been freed is false. -/
theorem environment_new_error_alloc_leak :
    Environment.new (failAt 1) [] =
      ([Call.envNlsCreate 0, Call.handleAlloc 1 OCIHandleType.error],
       POut.ok (Except.error { code := -1, message := "Error with no details",
                               location := "ffi::oci_handle_alloc" }))
    ∧ (failAt 1).status 0 = 0
    ∧ (Environment.new (failAt 1) []).1.filter isFreeCall = [] :=
  ⟨rfl, rfl, rfl⟩

/-- C8 amended: for every failing run of Environment.new the caller
receives the first encountered error and no Environment value; when the
environment-handle allocation itself fails nothing was allocated and
nothing can leak, but when the error-handle allocation fails the
already-allocated environment handle is not freed before the call
returns (the trace contains no free call), so it leaks. -/
theorem environment_new_failure_behavior :
    Environment.new (failAt 0) [] =
      ([Call.envNlsCreate 0],
       POut.ok (Except.error { code := -1, message := "Error with no details",
                               location := "ffi::oci_env_nls_create" }))
    ∧ Environment.new (failAt 1) [] =
      ([Call.envNlsCreate 0, Call.handleAlloc 1 OCIHandleType.error],
       POut.ok (Except.error { code := -1, message := "Error with no details",
                               location := "ffi::oci_handle_alloc" }))
    ∧ (Environment.new (failAt 0) []).1.filter isFreeCall = []
    ∧ (Environment.new (failAt 1) []).1.filter isFreeCall = [] :=
  ⟨rfl, rfl, rfl, rfl⟩

/-- C6: creating a Statement and executing it issues the prepare call
carrying the literal statement text together with the cache key
computed from it (the key is the text itself, so the derivation is
deterministic), then the execute call with iteration count 0 and row
offset 0, and returns the very statement value that was prepared; and
for every connection and text, the key carried by the prepare call is
exactly the text, so preparing the same text twice yields the same
cache key both times. -/
theorem statement_new_execute (envh errh svch srvh ssnh : Nat)
    (text : String) :
    prepareAndExecute { env := { handle := envh, error_handle := errh },
                        service_handle := svch, server_handle := srvh,
                        session_handle := ssnh } text allOk [] =
      ([Call.stmtPrepare2 svch errh text text 1 0,
        Call.errorGet errh 1,
        Call.stmtExecute svch 1 errh 0 0 0,
        Call.errorGet errh 1],
       POut.ok (Except.ok
         { conn := { env := { handle := envh, error_handle := errh },
                     service_handle := svch, server_handle := srvh,
                     session_handle := ssnh },
           stmt_handle := 1, stmt_hash := text }))
    ∧ prepareKeys ((Statement.new
        { env := { handle := envh, error_handle := errh },
          service_handle := svch, server_handle := srvh,
          session_handle := ssnh } text allOk []).1) = [text] :=
  ⟨rfl, rfl⟩

/-- C7: over the whole lifecycle of a Statement, the cache key carried
by the release call at teardown is exactly the key the prepare call
carried at creation: both key lists of the lifecycle trace are the
singleton of the statement text, hence byte-for-byte identical. -/
theorem statement_release_key (envh errh svch srvh ssnh : Nat)
    (text : String) :
    statementLifecycle { env := { handle := envh, error_handle := errh },
                         service_handle := svch, server_handle := srvh,
                         session_handle := ssnh } text allOk [] =
      ([Call.stmtPrepare2 svch errh text text 1 0,
        Call.errorGet errh 1,
        Call.stmtRelease 1 errh text 0,
        Call.errorGet errh 1,
        Call.sessionEnd svch errh ssnh 0,
        Call.errorGet errh 1,
        Call.serverDetach srvh errh 0,
        Call.errorGet errh 1,
        Call.handleFree ssnh OCIHandleType.session,
        Call.handleFree svch OCIHandleType.service,
        Call.handleFree srvh OCIHandleType.server,
        Call.handleFree errh OCIHandleType.error,
        Call.handleFree envh OCIHandleType.environment],
       POut.ok ())
    ∧ releaseKeys ((statementLifecycle
        { env := { handle := envh, error_handle := errh },
          service_handle := svch, server_handle := srvh,
          session_handle := ssnh } text allOk []).1) =
      prepareKeys ((statementLifecycle
        { env := { handle := envh, error_handle := errh },
          service_handle := svch, server_handle := srvh,
          session_handle := ssnh } text allOk []).1) :=
  ⟨rfl, rfl⟩

/-- C10: new_statement hands the whole Connection over to the Statement
(the same computation as Statement.new on that Connection), and the
drop glue of any Statement issues the statement-release call first and
only then runs the teardown of the owned Connection, which appears
exactly once: session end, server detach and the five handle frees all
come after the release in the one trace. -/
theorem statement_drop_defers_connection (envh errh svch srvh ssnh sh : Nat)
    (key text : String) :
    Statement.drop { conn := { env := { handle := envh, error_handle := errh },
                               service_handle := svch, server_handle := srvh,
                               session_handle := ssnh },
                     stmt_handle := sh, stmt_hash := key } allOk [] =
      ([Call.stmtRelease sh errh key 0,
        Call.errorGet errh 1,
        Call.sessionEnd svch errh ssnh 0,
        Call.errorGet errh 1,
        Call.serverDetach srvh errh 0,
        Call.errorGet errh 1,
        Call.handleFree ssnh OCIHandleType.session,
        Call.handleFree svch OCIHandleType.service,
        Call.handleFree srvh OCIHandleType.server,
        Call.handleFree errh OCIHandleType.error,
        Call.handleFree envh OCIHandleType.environment],
       POut.ok ())
    ∧ Connection.new_statement { env := { handle := envh, error_handle := errh },
                                 service_handle := svch, server_handle := srvh,
                                 session_handle := ssnh } text =
      Statement.new { env := { handle := envh, error_handle := errh },
                      service_handle := svch, server_handle := srvh,
                      session_handle := ssnh } text :=
  ⟨rfl, rfl⟩
